import Mathlib

/-!
Shallow embedding of the climate-disaster response engines
(src/pathway-service/advanced_features.py and src/pathway-service/main.py).

Conventions of the embedding:
* Python float arithmetic is modelled exactly over `ℚ`; the float constant
  `math.pi` is embedded as the exact rational value of the IEEE-754 double.
* Python dicts with optional keys become structures with `Option` fields;
  `d.get(k, v)` becomes `Option.getD`.
* Python `int(x)` (truncation toward zero) is `pyTrunc`; Python
  `round(x, 2)` (round half to even at two decimals) is `pyRound2`.
* `list.sort(key=..., reverse=True)` is the stable descending insertion
  sort `sortDesc` (stable sorts agree on their output, so this embeds the
  Python sort faithfully).
* The haversine distance `calculate_distance` evaluates transcendental
  float functions (sin, cos, atan2, sqrt); it has no exact rational
  embedding, so the route optimizer takes the distance function as an
  explicit parameter `distKm`, preserving exactly which coordinates the
  source feeds to it.
* The wall-clock reads `datetime.now()` inside `generate_alert` become
  explicit integer arguments, one per read, in source order.
-/

/-- Python `int(x)` on a rational: truncation toward zero. -/
def pyTrunc (q : ℚ) : ℤ := if q < 0 then -⌊-q⌋ else ⌊q⌋

/-- Round a rational to the nearest integer, ties to even
(the rounding of Python `round`). -/
def roundHalfEven (q : ℚ) : ℤ :=
  let f := ⌊q⌋
  let frac := q - f
  if frac < 1/2 then f
  else if 1/2 < frac then f + 1
  else if f % 2 = 0 then f else f + 1

/-- Python `round(x, 2)`: round half to even at two decimal places. -/
def pyRound2 (q : ℚ) : ℚ := (roundHalfEven (q * 100) : ℚ) / 100

/-- The exact rational value of the IEEE-754 double `math.pi`. -/
def piF : ℚ := 884279719003555 / 281474976710656

/-- Two-digit zero padding, for the fraction part of `fmt2`. -/
def pad2 (n : ℕ) : String := if n < 10 then "0" ++ toString n else toString n

/-- Python float formatting with two decimals, `f"{x:.2f}"`. -/
def fmt2 (q : ℚ) : String :=
  let n := roundHalfEven (q * 100)
  let sign := if n < 0 then "-" else ""
  let m := n.natAbs
  sign ++ toString (m / 100) ++ "." ++ pad2 (m % 100)

/-- Insert a comma after every third character; the input is the digit list
least-significant first. -/
def addCommas : List Char → List Char
  | a :: b :: c :: d :: rest => a :: b :: c :: ',' :: addCommas (d :: rest)
  | l => l

/-- Python thousands-separator formatting, `f"{n:,}"`. -/
def commaFmt (n : ℤ) : String :=
  (if n < 0 then "-" else "") ++
    String.mk (addCommas (toString n.natAbs).toList.reverse).reverse

/-- Stable insertion for a descending sort: `x` goes in front of the first
element whose key is at most the key of `x`. -/
def insertDesc {α : Type} (key : α → ℚ) (x : α) : List α → List α
  | [] => [x]
  | y :: ys => if key y ≤ key x then x :: y :: ys else y :: insertDesc key x ys

/-- Stable descending sort by a rational key: the embedding of the Python
`list.sort(key=..., reverse=True)` (Timsort is stable, and all stable sorts
produce the same output). -/
def sortDesc {α : Type} (key : α → ℚ) : List α → List α
  | [] => []
  | x :: xs => insertDesc key x (sortDesc key xs)

/-- Python `max(items, key=lambda x: x[1])`: fold that keeps the current
element unless the candidate key is strictly greater, so the first maximal
element wins. -/
def pyMax (l : List (String × ℚ)) : Option (String × ℚ) :=
  l.foldl (fun acc x =>
    match acc with
    | none => some x
    | some a => if a.2 < x.2 then some x else some a) none

namespace CitizenReportAggregator

/-- A citizen report as consumed by `verify_reports`; the source only reads
the `severity` key (an integer, possibly absent). -/
structure Report where
  severity : Option ℤ
deriving DecidableEq

/-- The severity a report contributes: `r.get("severity", 5)`. -/
def sevOf (r : Report) : ℤ := r.severity.getD 5

/-- Result dict of `verify_reports`; the `variance` key is only present in
the branch with at least two reports. -/
structure VerifyResult where
  verified : Bool
  confidence : ℚ
  report_count : ℕ
  consensus_severity : ℤ
  variance : Option ℚ
deriving DecidableEq

/-- `CitizenReportAggregator.verify_reports` (advanced_features.py 44-74). -/
def verify_reports (reports : List Report) : VerifyResult :=
  if reports.length < 2 then
    { verified := false
      confidence := 0.3
      report_count := reports.length
      consensus_severity := match reports with
        | [] => 5
        | r :: _ => sevOf r
      variance := none }
  else
    let avg_severity : ℚ := (reports.map fun r => (sevOf r : ℚ)).sum / reports.length
    let severity_variance : ℚ :=
      (reports.map fun r => ((sevOf r : ℚ) - avg_severity) ^ 2).sum / reports.length
    let confidence0 : ℚ := min (0.3 + (reports.length : ℚ) * 0.15) 0.95
    let confidence : ℚ := if 9 < severity_variance then confidence0 * 0.7 else confidence0
    { verified := decide (3 ≤ reports.length) && decide ((0.6 : ℚ) < confidence)
      confidence := confidence
      report_count := reports.length
      consensus_severity := pyTrunc avg_severity
      variance := some severity_variance }

/-- The integer pair computed by `grid_cell` before string formatting
(advanced_features.py 40-41): `int(lat / grid_size), int(lon / grid_size)`. -/
def grid_cell_key (lat lon grid_size : ℚ) : ℤ × ℤ :=
  (pyTrunc (lat / grid_size), pyTrunc (lon / grid_size))

/-- `CitizenReportAggregator.grid_cell` (advanced_features.py 37-42); the
source default for `grid_size` is 0.1. -/
def grid_cell (lat lon grid_size : ℚ) : String :=
  toString (grid_cell_key lat lon grid_size).1 ++ "," ++
    toString (grid_cell_key lat lon grid_size).2

/-- Spec-side mean severity of a report list (§4.3 of the spec). -/
def meanSeverity (reports : List Report) : ℚ :=
  (reports.map fun r => (sevOf r : ℚ)).sum / reports.length

/-- Spec-side mean squared deviation of the severities (§4.3 of the spec). -/
def sevVariance (reports : List Report) : ℚ :=
  (reports.map fun r => ((sevOf r : ℚ) - meanSeverity reports) ^ 2).sum / reports.length

/-- Spec-side confidence formula (§4.3 of the spec):
`min(0.3 + count*0.15, 0.95)`, multiplied by 0.7 when the variance
exceeds 9. -/
def specConfidence (reports : List Report) : ℚ :=
  if 9 < sevVariance reports then
    min (0.3 + (reports.length : ℚ) * 0.15) 0.95 * 0.7
  else
    min (0.3 + (reports.length : ℚ) * 0.15) 0.95

end CitizenReportAggregator

namespace DisasterRiskAnalyzer

/-- A weather observation as consumed by `analyze_weather` (main.py);
`city_name` is read with `.get`, every other key directly. -/
structure Weather where
  location : String
  city_name : Option String
  latitude : ℚ
  longitude : ℚ
  timestamp : ℤ
  temperature : ℚ
  humidity : ℚ
  wind_speed : ℚ
  pressure : ℚ
  precipitation : ℚ
deriving DecidableEq

/-- `DisasterRiskAnalyzer.calculate_flood_risk` (main.py 125-152). -/
def calculate_flood_risk (w : Weather) : ℚ :=
  let r1 : ℚ := if 50 < w.precipitation then 0.5
    else if 20 < w.precipitation then 0.3
    else if 10 < w.precipitation then 0.1 else 0
  let r2 : ℚ := if w.pressure < 980 then 0.3
    else if w.pressure < 1000 then 0.1 else 0
  let r3 : ℚ := if 90 < w.humidity then 0.1 else 0
  let r4 : ℚ := if 20 < w.wind_speed then 0.1 else 0
  min (r1 + r2 + r3 + r4) 1

/-- `DisasterRiskAnalyzer.calculate_fire_risk` (main.py 154-181). -/
def calculate_fire_risk (w : Weather) : ℚ :=
  let r1 : ℚ := if 35 < w.temperature then 0.4
    else if 30 < w.temperature then 0.2 else 0
  let r2 : ℚ := if w.humidity < 20 then 0.3
    else if w.humidity < 30 then 0.2 else 0
  let r3 : ℚ := if 25 < w.wind_speed then 0.3
    else if 15 < w.wind_speed then 0.1 else 0
  let r4 : ℚ := if w.precipitation = 0 then 0.1 else 0
  min (r1 + r2 + r3 + r4) 1

/-- `DisasterRiskAnalyzer.calculate_hurricane_risk` (main.py 183-206). -/
def calculate_hurricane_risk (w : Weather) : ℚ :=
  let r1 : ℚ := if w.pressure < 950 then 0.6
    else if w.pressure < 980 then 0.4
    else if w.pressure < 1000 then 0.2 else 0
  let r2 : ℚ := if 33 < w.wind_speed then 0.5
    else if 25 < w.wind_speed then 0.3 else 0
  let r3 : ℚ := if 30 < w.precipitation then 0.2 else 0
  min (r1 + r2 + r3) 1

/-- `DisasterRiskAnalyzer.get_recommendations` (main.py 236-244). -/
def get_recommendations (event_type : String) (risk_score : ℚ) : String :=
  if risk_score < 0.3 then
    "Monitor weather conditions. No immediate action required."
  else if risk_score < 0.6 then
    "Elevated " ++ event_type ++ " risk. Prepare emergency supplies and evacuation plan."
  else
    "HIGH " ++ event_type ++ " RISK! Consider immediate evacuation. Follow emergency protocols."

/-- The risk-prediction record produced by `analyze_weather`. -/
structure RiskPrediction where
  location : String
  city_name : String
  latitude : ℚ
  longitude : ℚ
  timestamp : ℤ
  risk_score : ℚ
  predicted_event_type : String
  confidence : ℚ
  time_to_event_hours : ℚ
  recommended_actions : String
deriving DecidableEq

/-- `DisasterRiskAnalyzer.analyze_weather` (main.py 208-234): evaluate the
three hazard scores, take the Python `max` over the items of the risks
dict (insertion order flood, fire, hurricane), and assemble the record. -/
def analyze_weather (w : Weather) : RiskPrediction :=
  let risks : List (String × ℚ) :=
    [("flood", calculate_flood_risk w),
     ("fire", calculate_fire_risk w),
     ("hurricane", calculate_hurricane_risk w)]
  let max_risk_type := (pyMax risks).getD ("", 0)
  { location := w.city_name.getD w.location
    city_name := w.city_name.getD "Unknown"
    latitude := w.latitude
    longitude := w.longitude
    timestamp := w.timestamp
    risk_score := max_risk_type.2
    predicted_event_type := max_risk_type.1
    confidence := 0.85
    time_to_event_hours := if 0.5 < max_risk_type.2 then 6 else 24
    recommended_actions := get_recommendations max_risk_type.1 max_risk_type.2 }

/-- Spec-side dominant hazard: the maximum-scoring one, ties broken by the
evaluation order flood, fire, hurricane (§4.4 of the spec). -/
def specDominant (w : Weather) : String :=
  if calculate_fire_risk w ≤ calculate_flood_risk w ∧
      calculate_hurricane_risk w ≤ calculate_flood_risk w then "flood"
  else if calculate_hurricane_risk w ≤ calculate_fire_risk w then "fire"
  else "hurricane"

end DisasterRiskAnalyzer

namespace EvacuationRouteOptimizer

/-- A hazard zone as consumed by `calculate_route_safety`: only the
`latitude` and `longitude` keys are read. -/
structure HazardZone where
  latitude : ℚ
  longitude : ℚ
deriving DecidableEq

/-- A blocked-road record; only the length of the list is ever used. -/
structure BlockedRoad where
  road_id : Option String
deriving DecidableEq

/-- A shelter dict: `latitude` and `longitude` are read directly, the other
keys through `.get`. -/
structure Shelter where
  id : Option String
  name : Option String
  latitude : ℚ
  longitude : ℚ
  capacity : Option ℤ
  current_occupancy : Option ℤ
deriving DecidableEq

/-- Result dict of `calculate_route_safety`; `disaster_distance_km` is
`none` when there are no disaster zones (float infinity in the source). -/
structure RouteInfo where
  distance_km : ℚ
  estimated_time_minutes : ℤ
  safety_score : ℚ
  disaster_distance_km : Option ℚ
  recommended : Bool
deriving DecidableEq

/-- The minimum over the distances from the start point to each disaster
zone (advanced_features.py 99-105); `none` embeds the initial float
infinity that survives an empty zone list. -/
def minDisasterDistance (distKm : ℚ → ℚ → ℚ → ℚ → ℚ) (start_lat start_lon : ℚ)
    (disaster_zones : List HazardZone) : Option ℚ :=
  disaster_zones.foldl (fun acc zone =>
    let d := distKm start_lat start_lon zone.latitude zone.longitude
    match acc with
    | none => some d
    | some m => some (min m d)) none

/-- `EvacuationRouteOptimizer.calculate_route_safety`
(advanced_features.py 80-130), parameterized by the distance function. -/
def calculate_route_safety (distKm : ℚ → ℚ → ℚ → ℚ → ℚ)
    (start_lat start_lon shelter_lat shelter_lon : ℚ)
    (disaster_zones : List HazardZone) (blocked_roads : List BlockedRoad) : RouteInfo :=
  let distance := distKm start_lat start_lon shelter_lat shelter_lon
  let base0 : ℚ := distance / 40 * 60
  let minD := minDisasterDistance distKm start_lat start_lon disaster_zones
  let sb : ℚ × ℚ := match minD with
    | none => (0.95, base0)
    | some m =>
      if m < 2 then (0.2, base0 * 1.5)
      else if m < 5 then (0.5, base0 * 1.2)
      else if m < 10 then (0.7, base0)
      else (0.95, base0)
  let road_penalty : ℚ := (blocked_roads.length : ℚ) * 0.05
  let safety_score : ℚ := max 0.1 (sb.1 - road_penalty)
  let time : ℚ := sb.2 + (blocked_roads.length : ℚ) * 10
  { distance_km := pyRound2 distance
    estimated_time_minutes := pyTrunc time
    safety_score := pyRound2 safety_score
    disaster_distance_km := minD.map pyRound2
    recommended := decide ((0.6 : ℚ) < safety_score) }

/-- `shelter.get("capacity", 0) - shelter.get("current_occupancy", 0)`
(advanced_features.py 153). -/
def capacity_available (shelter : Shelter) : ℤ :=
  shelter.capacity.getD 0 - shelter.current_occupancy.getD 0

/-- `min(1.0, capacity_available / max(shelter.get("capacity", 1), 1))`
(advanced_features.py 154). -/
def capacity_score (shelter : Shelter) : ℚ :=
  min 1 ((capacity_available shelter : ℚ) / ((max (shelter.capacity.getD 1) 1 : ℤ) : ℚ))

/-- An entry of the ranked shelter list built by `find_best_shelter`. -/
structure RankedShelter where
  shelter_id : String
  name : String
  latitude : ℚ
  longitude : ℚ
  distance_km : ℚ
  estimated_time_minutes : ℤ
  safety_score : ℚ
  capacity_available : ℤ
  combined_score : ℚ
deriving DecidableEq

/-- The entry `find_best_shelter` builds for one shelter
(advanced_features.py 144-169); the blocked-roads argument is the empty
list at this call site. -/
def mkRanked (distKm : ℚ → ℚ → ℚ → ℚ → ℚ) (user_lat user_lon : ℚ)
    (disaster_zones : List HazardZone) (shelter : Shelter) : RankedShelter :=
  let route_info := calculate_route_safety distKm user_lat user_lon
    shelter.latitude shelter.longitude disaster_zones []
  let combined_score : ℚ := route_info.safety_score * 0.6 + capacity_score shelter * 0.4
  { shelter_id := shelter.id.getD "unknown"
    name := shelter.name.getD "Emergency Shelter"
    latitude := shelter.latitude
    longitude := shelter.longitude
    distance_km := route_info.distance_km
    estimated_time_minutes := route_info.estimated_time_minutes
    safety_score := route_info.safety_score
    capacity_available := capacity_available shelter
    combined_score := pyRound2 combined_score }

/-- `EvacuationRouteOptimizer.find_best_shelter`
(advanced_features.py 132-174); the source default for `max_shelters`
is 3. -/
def find_best_shelter (distKm : ℚ → ℚ → ℚ → ℚ → ℚ) (user_lat user_lon : ℚ)
    (shelters : List Shelter) (disaster_zones : List HazardZone)
    (max_shelters : ℕ) : List RankedShelter :=
  let ranked_shelters := shelters.map (mkRanked distKm user_lat user_lon disaster_zones)
  (sortDesc (fun r => r.combined_score) ranked_shelters).take max_shelters

end EvacuationRouteOptimizer

namespace ResourceAllocator

/-- A disaster-zone dict as consumed by the allocator: `latitude` and
`longitude` are read directly; `severity`, `affected_radius_km`,
`population` and `event_id` through `.get` in the priority computation.
The quota step reads `disaster["severity"]` directly and would raise a
KeyError when the key is absent, hence the `Option` result of
`allocate_resources`. -/
structure DisasterZone where
  event_id : Option String
  latitude : ℚ
  longitude : ℚ
  severity : Option ℚ
  affected_radius_km : Option ℚ
  population : Option ℚ
deriving DecidableEq

/-- `ResourceAllocator.calculate_resource_priority`
(advanced_features.py 180-195). -/
def calculate_resource_priority (disaster_event : DisasterZone) (population : ℚ) : ℚ :=
  let severity := disaster_event.severity.getD 5
  let affected_radius := disaster_event.affected_radius_km.getD 5
  let affected_area_km2 : ℚ := piF * affected_radius ^ 2
  let estimated_affected : ℚ := population * (affected_area_km2 / 100)
  let priority : ℚ := severity / 10 * 0.5 + min estimated_affected 10000 / 10000 * 0.5
  min 1 priority

/-- One allocation record (advanced_features.py 222-238); the nested
`needed_resources` dict is flattened into the four quota fields. -/
structure Allocation where
  disaster_id : String
  location : String
  priority : ℚ
  severity : ℚ
  medical_teams : ℤ
  water_supplies : ℤ
  food_supplies : ℤ
  rescue_vehicles : ℤ
  dispatch_urgency : String
deriving DecidableEq

/-- The allocation built from one prioritized zone; `none` embeds the
KeyError the source raises when `disaster["severity"]` is absent. -/
def allocationOf (p : DisasterZone × ℚ) : Option Allocation :=
  match p.1.severity with
  | none => none
  | some s => some
    { disaster_id := p.1.event_id.getD "unknown"
      location := fmt2 p.1.latitude ++ "," ++ fmt2 p.1.longitude
      priority := p.2
      severity := s
      medical_teams := pyTrunc (s * 2)
      water_supplies := pyTrunc (s * 100)
      food_supplies := pyTrunc (s * 150)
      rescue_vehicles := pyTrunc (s * 1.5)
      dispatch_urgency := if 0.7 < p.2 then "IMMEDIATE"
        else if 0.5 < p.2 then "HIGH" else "NORMAL" }

/-- The allocation loop over the sorted zone list; the first missing
severity key aborts with `none` (the KeyError of the source). -/
def allocList : List (DisasterZone × ℚ) → Option (List Allocation)
  | [] => some []
  | p :: rest =>
    match allocationOf p, allocList rest with
    | some a, some l => some (a :: l)
    | _, _ => none

/-- `ResourceAllocator.allocate_resources` (advanced_features.py 197-240).
The `available_resources` parameter of the source is never read by the
body and is omitted. -/
def allocate_resources (disasters : List DisasterZone) : Option (List Allocation) :=
  let prioritized_disasters := disasters.map fun d =>
    (d, calculate_resource_priority d (d.population.getD 50000))
  allocList (sortDesc (fun p => p.2) prioritized_disasters)

end ResourceAllocator

namespace AlertGenerator

/-- The risk-prediction dict as consumed by `generate_alert`: every key is
read through `.get` with a default. -/
structure AlertInput where
  risk_score : Option ℚ
  predicted_event_type : Option String
  time_to_event_hours : Option ℚ
  recommended_actions : Option String
  location : Option String
  latitude : Option ℚ
  longitude : Option ℚ
deriving DecidableEq

/-- The alert record produced by `generate_alert`. -/
structure Alert where
  alert_id : String
  timestamp : ℤ
  location : String
  latitude : ℚ
  longitude : ℚ
  alert_level : String
  event_type : String
  risk_score : ℚ
  message : String
  color_code : String
  expires_at : ℤ
  population_affected : ℤ
deriving DecidableEq

/-- `AlertGenerator.generate_alert` (advanced_features.py 246-289).
The source calls `datetime.now()` three times; `now1`, `now2`, `now3` are
those three integer clock readings, in source order (alert id, timestamp,
expiry base). -/
def generate_alert (risk_prediction : AlertInput) (population_affected : ℤ)
    (now1 now2 now3 : ℤ) : Alert :=
  let risk_score := risk_prediction.risk_score.getD 0
  let event_type := risk_prediction.predicted_event_type.getD "unknown"
  let lc : String × String :=
    if 0.8 ≤ risk_score then ("CRITICAL", "red")
    else if 0.6 ≤ risk_score then ("SEVERE", "orange")
    else if 0.4 ≤ risk_score then ("MODERATE", "yellow")
    else ("ADVISORY", "blue")
  let time_to_event := risk_prediction.time_to_event_hours.getD 24
  let message :=
    lc.1 ++ " " ++ String.mk (event_type.data.map Char.toUpper) ++ " ALERT\n" ++
    "Expected within " ++ toString (pyTrunc time_to_event) ++ " hours\n" ++
    "Risk Score: " ++ fmt2 risk_score ++ "\n" ++
    "Estimated Affected: " ++ commaFmt population_affected ++ " people\n" ++
    "Actions: " ++ risk_prediction.recommended_actions.getD "Monitor conditions"
  { alert_id := "ALERT-" ++ toString now1
    timestamp := now2
    location := risk_prediction.location.getD "Unknown"
    latitude := risk_prediction.latitude.getD 0
    longitude := risk_prediction.longitude.getD 0
    alert_level := lc.1
    event_type := event_type
    risk_score := risk_score
    message := message
    color_code := lc.2
    expires_at := now3 + pyTrunc time_to_event * 3600
    population_affected := population_affected }

end AlertGenerator

/-! ## General lemmas about the embedding helpers -/

theorem pyTrunc_intCast (a : ℤ) : pyTrunc (a : ℚ) = a := by
  rw [pyTrunc]
  by_cases h : (a : ℚ) < 0
  · rw [if_pos h]
    rw [show -(a : ℚ) = ((-a : ℤ) : ℚ) by push_cast; ring, Int.floor_intCast]
    ring
  · rw [if_neg h, Int.floor_intCast]

theorem pyTrunc_of_nonneg {q : ℚ} (h : 0 ≤ q) : pyTrunc q = ⌊q⌋ := by
  rw [pyTrunc, if_neg (not_lt.mpr h)]

theorem insertDesc_perm {α : Type} (key : α → ℚ) (x : α) (l : List α) :
    List.Perm (insertDesc key x l) (x :: l) := by
  induction l with
  | nil => exact List.Perm.refl _
  | cons y ys ih =>
    rw [insertDesc]
    by_cases h : key y ≤ key x
    · rw [if_pos h]
    · rw [if_neg h]
      exact (ih.cons y).trans (List.Perm.swap x y ys)

theorem sortDesc_perm {α : Type} (key : α → ℚ) (l : List α) :
    List.Perm (sortDesc key l) l := by
  induction l with
  | nil => exact List.Perm.refl _
  | cons x xs ih =>
    rw [sortDesc]
    exact (insertDesc_perm key x (sortDesc key xs)).trans (ih.cons x)

theorem insertDesc_pairwise {α : Type} (key : α → ℚ) (x : α) (l : List α)
    (h : l.Pairwise fun a b => key b ≤ key a) :
    (insertDesc key x l).Pairwise fun a b => key b ≤ key a := by
  induction l with
  | nil => simp [insertDesc]
  | cons y ys ih =>
    rw [List.pairwise_cons] at h
    rw [insertDesc]
    by_cases hxy : key y ≤ key x
    · rw [if_pos hxy, List.pairwise_cons]
      refine ⟨?_, List.pairwise_cons.mpr h⟩
      intro b hb
      rcases List.mem_cons.mp hb with hby | hbys
      · exact hby ▸ hxy
      · exact le_trans (h.1 b hbys) hxy
    · rw [if_neg hxy, List.pairwise_cons]
      refine ⟨?_, ih h.2⟩
      intro b hb
      have hmem : b ∈ x :: ys := (insertDesc_perm key x ys).mem_iff.mp hb
      rcases List.mem_cons.mp hmem with hbx | hbys
      · exact hbx ▸ le_of_lt (lt_of_not_le hxy)
      · exact h.1 b hbys

theorem sortDesc_pairwise {α : Type} (key : α → ℚ) (l : List α) :
    (sortDesc key l).Pairwise fun a b => key b ≤ key a := by
  induction l with
  | nil => simp [sortDesc]
  | cons x xs ih => exact insertDesc_pairwise key x (sortDesc key xs) ih

theorem pyMax_three (a b c : String) (x y z : ℚ) :
    pyMax [(a, x), (b, y), (c, z)] =
      some (if y ≤ x ∧ z ≤ x then (a, x) else if z ≤ y then (b, y) else (c, z)) := by
  simp only [pyMax, List.foldl]
  by_cases hxy : x < y
  · rw [if_pos hxy]
    by_cases hyz : y < z
    · simp only [if_pos hyz]
      rw [if_neg (by exact fun hc => absurd hc.1 (not_le.mpr hxy)),
        if_neg (not_le.mpr hyz)]
    · simp only [if_neg hyz]
      rw [if_neg (by exact fun hc => absurd hc.1 (not_le.mpr hxy)),
        if_pos (not_lt.mp hyz)]
  · rw [if_neg hxy]
    by_cases hxz : x < z
    · simp only [if_pos hxz]
      rw [if_neg (by exact fun hc => absurd hc.2 (not_le.mpr hxz)),
        if_neg (by exact not_le.mpr (lt_of_le_of_lt (not_lt.mp hxy) hxz))]
    · simp only [if_neg hxz]
      rw [if_pos ⟨not_lt.mp hxy, not_lt.mp hxz⟩]

/-! ## Theorems for the claims -/

namespace CitizenReportAggregator

/-- Any two report lists whose severity readings agree produce the same
verification result: `verify_reports` only looks at the severity reads. -/
theorem verify_reports_congr (rs1 rs2 : List Report)
    (h : rs1.map sevOf = rs2.map sevOf) : verify_reports rs1 = verify_reports rs2 := by
  have hlen : rs1.length = rs2.length := by
    rw [← List.length_map rs1 sevOf, ← List.length_map rs2 sevOf, h]
  have hq : (rs1.map fun r => (sevOf r : ℚ)) = rs2.map fun r => (sevOf r : ℚ) := by
    have h1 : (rs1.map fun r => (sevOf r : ℚ)) =
        List.map (fun z : ℤ => (z : ℚ)) (List.map sevOf rs1) := by
      rw [List.map_map]; rfl
    have h2 : (rs2.map fun r => (sevOf r : ℚ)) =
        List.map (fun z : ℤ => (z : ℚ)) (List.map sevOf rs2) := by
      rw [List.map_map]; rfl
    rw [h1, h2, h]
  have hvar : ∀ m : ℚ,
      (rs1.map fun r => ((sevOf r : ℚ) - m) ^ 2) = rs2.map fun r => ((sevOf r : ℚ) - m) ^ 2 := by
    intro m
    have h1 : (rs1.map fun r => ((sevOf r : ℚ) - m) ^ 2) =
        List.map (fun q : ℚ => (q - m) ^ 2) (rs1.map fun r => (sevOf r : ℚ)) := by
      rw [List.map_map]; rfl
    have h2 : (rs2.map fun r => ((sevOf r : ℚ) - m) ^ 2) =
        List.map (fun q : ℚ => (q - m) ^ 2) (rs2.map fun r => (sevOf r : ℚ)) := by
      rw [List.map_map]; rfl
    rw [h1, h2, hq]
  cases rs1 with
  | nil =>
    cases rs2 with
    | nil => rfl
    | cons r2 t2 => simp at h
  | cons r1 t1 =>
    cases rs2 with
    | nil => simp at h
    | cons r2 t2 =>
      have hh : sevOf r1 = sevOf r2 := by
        simp only [List.map_cons, List.cons.injEq] at h
        exact h.1
      simp only [verify_reports.eq_def]
      rw [hlen, hq, hvar, hh]

end CitizenReportAggregator

namespace CitizenReportAggregator

/-- Claim C8: `verify_reports` never divides by zero on the empty list, and
for every report list with fewer than 2 members it returns confidence 0.3,
verified = false, and a consensus severity equal to the first report
severity (defaulting to 5) or 5 when the list is empty; the division by the
report count only happens in the other branch, where the count is at
least 2. -/
theorem claim8_verify_degenerate (reports : List Report) (h : reports.length < 2) :
    verify_reports reports =
      { verified := false
        confidence := 0.3
        report_count := reports.length
        consensus_severity := match reports with
          | [] => 5
          | r :: _ => r.severity.getD 5
        variance := none } := by
  cases reports with
  | nil => rfl
  | cons r t =>
    rw [verify_reports.eq_def, if_pos h]
    rfl

/-- Witness for C8 at the empty list and a singleton without a severity
key. -/
theorem claim8_witness :
    verify_reports [] = ⟨false, 0.3, 0, 5, none⟩ ∧
      verify_reports [⟨none⟩] = ⟨false, 0.3, 1, 5, none⟩ :=
  ⟨claim8_verify_degenerate [] (by norm_num),
    claim8_verify_degenerate [⟨none⟩] (by norm_num)⟩

/-- Counterexample to C3 as stated: at latitude = longitude = -0.05 and
cell size 0.1 the quotients are -0.5, the code key (truncation toward
zero) is (0, 0), while the floor pair is (-1, -1). -/
theorem claim3_counterexample :
    grid_cell_key (-1/20) (-1/20) (1/10) = (0, 0) ∧
      (⌊((-1/20 : ℚ) / (1/10))⌋, ⌊((-1/20 : ℚ) / (1/10))⌋) = (-1, -1) ∧
      ((0 : ℤ), (0 : ℤ)) ≠ ((-1 : ℤ), (-1 : ℤ)) := by
  refine ⟨?_, ?_, by decide⟩
  · have hq : ((-1/20 : ℚ) / (1/10)) = -1/2 := by norm_num
    have hfl : ⌊(1/2 : ℚ)⌋ = 0 := by rw [Int.floor_eq_iff]; norm_num
    rw [grid_cell_key, hq, pyTrunc, if_pos (by norm_num)]
    rw [show -(-1/2 : ℚ) = 1/2 by norm_num, hfl]
    rfl
  · have hq : ((-1/20 : ℚ) / (1/10)) = -1/2 := by norm_num
    have hfl : ⌊(-1/2 : ℚ)⌋ = -1 := by rw [Int.floor_eq_iff]; norm_num
    rw [hq, hfl]

/-- Claim C3, amended: the grid cell key is the pair of truncations toward
zero of lat/cellSize and lon/cellSize (Python `int`), which coincides with
the floor pair whenever both quotients are nonnegative but not for
negative fractional quotients. -/
theorem claim3_grid_cell (lat lon grid_size : ℚ)
    (hlat : 0 ≤ lat / grid_size) (hlon : 0 ≤ lon / grid_size) :
    grid_cell_key lat lon grid_size = (⌊lat / grid_size⌋, ⌊lon / grid_size⌋) ∧
      grid_cell lat lon grid_size =
        toString ⌊lat / grid_size⌋ ++ "," ++ toString ⌊lon / grid_size⌋ := by
  have h1 : pyTrunc (lat / grid_size) = ⌊lat / grid_size⌋ := pyTrunc_of_nonneg hlat
  have h2 : pyTrunc (lon / grid_size) = ⌊lon / grid_size⌋ := pyTrunc_of_nonneg hlon
  constructor
  · rw [grid_cell_key, h1, h2]
  · rw [grid_cell, grid_cell_key, h1, h2]

/-- Witness for C3 (amended) at lat 0.5, lon 1.5, cell size 0.1. -/
theorem claim3_witness :
    grid_cell_key (1/2) (3/2) (1/10) = (5, 15) ∧ grid_cell (1/2) (3/2) (1/10) = "5,15" := by
  have h := claim3_grid_cell (1/2) (3/2) (1/10) (by norm_num) (by norm_num)
  have e1 : ⌊((1/2 : ℚ) / (1/10))⌋ = 5 := by
    rw [show ((1/2 : ℚ) / (1/10)) = 5 by norm_num]
    exact Int.floor_intCast 5
  have e2 : ⌊((3/2 : ℚ) / (1/10))⌋ = 15 := by
    rw [show ((3/2 : ℚ) / (1/10)) = 15 by norm_num]
    exact Int.floor_intCast 15
  constructor
  · rw [h.1, e1, e2]
  · rw [h.2, e1, e2]
    decide

end CitizenReportAggregator

namespace CitizenReportAggregator

/-- Counterexample to C6 as stated: the severity reads are not clamped into
[1, 10]. Two reports with severity 20 yield consensus severity 20 (a
clamped read would keep it at most 10), and a zone with severity -5 and
radius 0 yields a negative resource priority (a clamped read would give at
least 0.05). -/
theorem claim6_counterexample :
    (verify_reports [⟨some 20⟩, ⟨some 20⟩]).consensus_severity = 20 ∧
      ¬ (verify_reports [⟨some 20⟩, ⟨some 20⟩]).consensus_severity ≤ 10 ∧
      ResourceAllocator.calculate_resource_priority ⟨none, 0, 0, some (-5), some 0, none⟩ 100 =
        -(1/4) ∧
      ¬ (0 : ℚ) ≤ -(1/4) := by
  have h20 : (verify_reports [⟨some 20⟩, ⟨some 20⟩]).consensus_severity = 20 := by
    have hfl : ⌊(20 : ℚ)⌋ = 20 := Int.floor_intCast 20
    norm_num [verify_reports, sevOf, pyTrunc, hfl]
  refine ⟨h20, by rw [h20]; norm_num, ?_, by norm_num⟩
  norm_num [ResourceAllocator.calculate_resource_priority]

/-- Claim C6, amended: every severity read defaults to 5 when the field is
absent, and otherwise uses the raw value as-is, without clamping into
[1, 10]: a report with no severity behaves exactly like one with severity
5, a missing zone severity or radius behaves exactly like the value 5, and
an arbitrary (even out-of-range) severity value passes through to the
consensus unclamped. -/
theorem claim6_default_unclamped :
    (∀ (rest : List Report), verify_reports (⟨none⟩ :: rest) = verify_reports (⟨some 5⟩ :: rest)) ∧
      (∀ a : ℤ, (verify_reports [⟨some a⟩, ⟨some a⟩]).consensus_severity = a) ∧
      (∀ (e : Option String) (la lo : ℚ) (or : Option ℚ) (op : Option ℚ) (pop : ℚ),
        ResourceAllocator.calculate_resource_priority ⟨e, la, lo, none, or, op⟩ pop =
          ResourceAllocator.calculate_resource_priority ⟨e, la, lo, some 5, or, op⟩ pop) ∧
      (∀ s pop : ℚ, ResourceAllocator.calculate_resource_priority ⟨none, 0, 0, some s, some 0, none⟩ pop =
        min 1 (s / 10 * 0.5)) := by
  refine ⟨?_, ?_, ?_, ?_⟩
  · intro rest
    exact verify_reports_congr _ _ (by simp [sevOf])
  · intro a
    have havg : ((a : ℚ) + ((a : ℚ) + 0)) / 2 = (a : ℚ) := by ring
    have htr : pyTrunc ((a : ℚ)) = a := pyTrunc_intCast a
    simp only [verify_reports, sevOf, Option.getD_some, List.length_cons, List.length_nil,
      List.map_cons, List.map_nil, List.sum_cons, List.sum_nil]
    norm_num [havg, htr]
  · intro e la lo oreo op pop
    rfl
  · intro s pop
    simp only [ResourceAllocator.calculate_resource_priority, Option.getD_some]
    norm_num

end CitizenReportAggregator

namespace CitizenReportAggregator

/-- Counterexample to C1 as stated: on severities [1,1,1,9,9] the variance
is 15.36, not the claimed 14.56, and the consensus severity of the code is
the truncation toward zero of the mean, not its floor: on severities
[-3,-4] the mean is -3.5, the code returns -3 while the floor is -4. -/
theorem claim1_counterexample :
    (verify_reports [⟨some 1⟩, ⟨some 1⟩, ⟨some 1⟩, ⟨some 9⟩, ⟨some 9⟩]).variance =
        some (384/25) ∧
      (384/25 : ℚ) ≠ 14.56 ∧
      (verify_reports [⟨some (-3)⟩, ⟨some (-4)⟩]).consensus_severity = -3 ∧
      ⌊meanSeverity [⟨some (-3)⟩, ⟨some (-4)⟩]⌋ = -4 := by
  refine ⟨?_, by norm_num, ?_, ?_⟩
  · norm_num [verify_reports, sevOf]
  · have hm : ((-3 : ℚ) + (-4 + 0)) / 2 = -(7/2) := by norm_num
    have hfl : ⌊(7/2 : ℚ)⌋ = 3 := by rw [Int.floor_eq_iff]; norm_num
    norm_num [verify_reports, sevOf, pyTrunc, hm, hfl]
  · have hm : meanSeverity [⟨some (-3)⟩, ⟨some (-4)⟩] = -(7/2) := by
      norm_num [meanSeverity, sevOf]
    rw [hm, Int.floor_eq_iff]; norm_num

/-- Claim C1, amended: for every report list with at least 2 members,
`verify_reports` computes the mean severity (defaulting each severity to 5
when absent), the variance as the mean squared deviation, the confidence
as min(0.3 + count*0.15, 0.95), multiplied by 0.7 when the variance
exceeds 9, verified = (count >= 3) AND (confidence > 0.6), and the
consensus severity as the mean truncated toward zero (the floor whenever
the mean is nonnegative); the confidence never exceeds 0.95 for any input
list, and on severities [1,1,1,9,9] it returns confidence 0.665,
verified = true, consensus severity 4 and variance 15.36. -/
theorem claim1_verify_formulas (reports : List Report) (h : 2 ≤ reports.length) :
    (verify_reports reports).confidence = specConfidence reports ∧
      ((verify_reports reports).verified = true ↔
        3 ≤ reports.length ∧ 0.6 < specConfidence reports) ∧
      (verify_reports reports).consensus_severity = pyTrunc (meanSeverity reports) ∧
      (0 ≤ meanSeverity reports →
        (verify_reports reports).consensus_severity = ⌊meanSeverity reports⌋) ∧
      (verify_reports reports).variance = some (sevVariance reports) ∧
      (verify_reports reports).report_count = reports.length ∧
      (∀ rs : List Report, (verify_reports rs).confidence ≤ 0.95) ∧
      verify_reports [⟨some 1⟩, ⟨some 1⟩, ⟨some 1⟩, ⟨some 9⟩, ⟨some 9⟩] =
        ⟨true, 0.665, 5, 4, some 15.36⟩ := by
  have hnlt : ¬ reports.length < 2 := not_lt.mpr h
  have hconf : (verify_reports reports).confidence = specConfidence reports := by
    rw [verify_reports.eq_def, if_neg hnlt]
    rfl
  have hmean : (verify_reports reports).consensus_severity = pyTrunc (meanSeverity reports) := by
    rw [verify_reports.eq_def, if_neg hnlt]
    rfl
  refine ⟨hconf, ?_, hmean, ?_, ?_, ?_, ?_, ?_⟩
  · rw [verify_reports.eq_def, if_neg hnlt]
    simp only [Bool.and_eq_true, decide_eq_true_eq]
    constructor
    · rintro ⟨h3, hc⟩
      exact ⟨h3, by rw [← hconf, verify_reports.eq_def, if_neg hnlt]; exact hc⟩
    · rintro ⟨h3, hc⟩
      refine ⟨h3, ?_⟩
      rw [← hconf, verify_reports.eq_def, if_neg hnlt] at hc
      exact hc
  · intro hm
    rw [hmean, pyTrunc_of_nonneg hm]
  · rw [verify_reports.eq_def, if_neg hnlt]
    rfl
  · rw [verify_reports.eq_def, if_neg hnlt]
  · intro rs
    by_cases hl : rs.length < 2
    · rw [verify_reports.eq_def, if_pos hl]
      norm_num
    · rw [verify_reports.eq_def, if_neg hl]
      simp only []
      have h0 : (0 : ℚ) ≤ min (0.3 + (rs.length : ℚ) * 0.15) 0.95 :=
        le_min (by positivity) (by norm_num)
      have h95 : min (0.3 + (rs.length : ℚ) * 0.15) 0.95 ≤ 0.95 := min_le_right _ _
      by_cases hv : 9 < (rs.map fun r => ((sevOf r : ℚ) -
          (rs.map fun r => (sevOf r : ℚ)).sum / rs.length) ^ 2).sum / rs.length
      · rw [if_pos hv]
        nlinarith
      · rw [if_neg hv]
        exact h95
  · have hfl : ⌊(21/5 : ℚ)⌋ = 4 := by rw [Int.floor_eq_iff]; norm_num
    have htr : pyTrunc (21/5 : ℚ) = 4 := by
      rw [pyTrunc_of_nonneg (by norm_num)]
      exact hfl
    norm_num [verify_reports, sevOf, htr]

/-- Witness for C1 (amended) at three identical reports of severity 7:
mean 7, variance 0, confidence 0.75, verified. -/
theorem claim1_witness :
    (verify_reports [⟨some 7⟩, ⟨some 7⟩, ⟨some 7⟩]).confidence = 0.75 ∧
      (verify_reports [⟨some 7⟩, ⟨some 7⟩, ⟨some 7⟩]).verified = true ∧
      (verify_reports [⟨some 7⟩, ⟨some 7⟩, ⟨some 7⟩]).consensus_severity = 7 := by
  have h := claim1_verify_formulas [⟨some 7⟩, ⟨some 7⟩, ⟨some 7⟩] (by norm_num)
  have hspec : specConfidence [⟨some 7⟩, ⟨some 7⟩, ⟨some 7⟩] = 0.75 := by
    norm_num [specConfidence, sevVariance, meanSeverity, sevOf]
  refine ⟨by rw [h.1, hspec], ?_, ?_⟩
  · rw [h.2.1, hspec]
    norm_num
  · have hm : meanSeverity [⟨some 7⟩, ⟨some 7⟩, ⟨some 7⟩] = 7 := by
      norm_num [meanSeverity, sevOf]
    rw [h.2.2.2.1 (by rw [hm]; norm_num), hm]
    exact Int.floor_intCast 7

end CitizenReportAggregator

namespace DisasterRiskAnalyzer

/-- Counterexample to C2 as stated: the monitor-band recommendation is a
fixed text that does not mention the hazard name (identical for different
hazards), and a risk score of exactly 0.6 — inside the claimed
0.3-to-0.6 prepare band and not above 0.6 — already selects the
evacuate-tier text. -/
theorem claim2_counterexample :
    get_recommendations "flood" (1/10) =
        "Monitor weather conditions. No immediate action required." ∧
      get_recommendations "flood" (1/10) = get_recommendations "hurricane" (1/10) ∧
      (analyze_weather ⟨"L", none, 0, 0, 0, 10, 50, 5, 990, 60⟩).risk_score = 3/5 ∧
      (analyze_weather ⟨"L", none, 0, 0, 0, 10, 50, 5, 990, 60⟩).recommended_actions =
        "HIGH flood RISK! Consider immediate evacuation. Follow emergency protocols." := by
  have hf : calculate_flood_risk ⟨"L", none, 0, 0, 0, 10, 50, 5, 990, 60⟩ = 3/5 := by
    norm_num [calculate_flood_risk]
  have hg : calculate_fire_risk ⟨"L", none, 0, 0, 0, 10, 50, 5, 990, 60⟩ = 0 := by
    norm_num [calculate_fire_risk]
  have hh : calculate_hurricane_risk ⟨"L", none, 0, 0, 0, 10, 50, 5, 990, 60⟩ = 2/5 := by
    norm_num [calculate_hurricane_risk]
  refine ⟨?_, ?_, ?_, ?_⟩
  · rw [get_recommendations, if_pos (by norm_num)]
  · rw [get_recommendations, if_pos (by norm_num), get_recommendations,
      if_pos (by norm_num)]
  · simp only [analyze_weather, pyMax_three, hf, hg, hh]
    norm_num
  · simp only [analyze_weather, pyMax_three, hf, hg, hh]
    norm_num [get_recommendations]
    decide

/-- Claim C2, amended: `analyze_weather` evaluates the flood, fire and
hurricane scores, returns the maximum score with ties broken by the
evaluation order flood, fire, hurricane, fixes confidence at 0.85, sets
timeToEventHours to 6 when the winning score exceeds 0.5 and to 24
otherwise, and selects the recommendation by score band: below 0.3 a fixed
monitor text that does not mention the hazard, from 0.3 up to but
excluding 0.6 a prepare text naming the hazard, and at 0.6 or above an
evacuate text naming the hazard. -/
theorem claim2_analyze_weather (w : Weather) :
    (analyze_weather w).risk_score =
        max (calculate_flood_risk w)
          (max (calculate_fire_risk w) (calculate_hurricane_risk w)) ∧
      (analyze_weather w).predicted_event_type = specDominant w ∧
      (analyze_weather w).confidence = 0.85 ∧
      (analyze_weather w).time_to_event_hours =
        (if 0.5 < (analyze_weather w).risk_score then 6 else 24) ∧
      (analyze_weather w).recommended_actions =
        (if (analyze_weather w).risk_score < 0.3 then
          "Monitor weather conditions. No immediate action required."
        else if (analyze_weather w).risk_score < 0.6 then
          "Elevated " ++ specDominant w ++
            " risk. Prepare emergency supplies and evacuation plan."
        else
          "HIGH " ++ specDominant w ++
            " RISK! Consider immediate evacuation. Follow emergency protocols.") := by
  by_cases h1 : calculate_fire_risk w ≤ calculate_flood_risk w ∧
      calculate_hurricane_risk w ≤ calculate_flood_risk w
  · have hm : max (calculate_flood_risk w)
        (max (calculate_fire_risk w) (calculate_hurricane_risk w)) =
          calculate_flood_risk w := max_eq_left (max_le h1.1 h1.2)
    simp only [analyze_weather, pyMax_three, if_pos h1, Option.getD_some,
      specDominant, hm, get_recommendations]
    exact ⟨trivial, trivial, trivial, trivial, trivial⟩
  · by_cases h2 : calculate_hurricane_risk w ≤ calculate_fire_risk w
    · have hfg : calculate_flood_risk w < calculate_fire_risk w := by
        by_contra hc
        exact h1 ⟨not_lt.mp hc, le_trans h2 (not_lt.mp hc)⟩
      have hm : max (calculate_flood_risk w)
          (max (calculate_fire_risk w) (calculate_hurricane_risk w)) =
            calculate_fire_risk w := by
        rw [max_eq_left h2]
        exact max_eq_right (le_of_lt hfg)
      simp only [analyze_weather, pyMax_three, if_neg h1, if_pos h2, Option.getD_some,
        specDominant, hm, get_recommendations]
      exact ⟨trivial, trivial, trivial, trivial, trivial⟩
    · have hgh : calculate_fire_risk w < calculate_hurricane_risk w := not_le.mp h2
      have hfh : calculate_flood_risk w ≤ calculate_hurricane_risk w := by
        by_cases hgf : calculate_fire_risk w ≤ calculate_flood_risk w
        · by_contra hc
          exact h1 ⟨hgf, not_lt.mp (fun hlt => hc (le_of_lt hlt))⟩
        · exact le_trans (le_of_lt (not_le.mp hgf)) (le_of_lt hgh)
      have hm : max (calculate_flood_risk w)
          (max (calculate_fire_risk w) (calculate_hurricane_risk w)) =
            calculate_hurricane_risk w := by
        rw [max_eq_right (le_of_lt hgh)]
        exact max_eq_right hfh
      simp only [analyze_weather, pyMax_three, if_neg h1, if_neg h2, Option.getD_some,
        specDominant, hm, get_recommendations]
      exact ⟨trivial, trivial, trivial, trivial, trivial⟩

end DisasterRiskAnalyzer

/-! ## Evaluation helpers for concrete rationals -/

theorem floor_eval {q : ℚ} {z : ℤ} (h1 : (z : ℚ) ≤ q) (h2 : q < z + 1) : ⌊q⌋ = z := by
  rw [Int.floor_eq_iff]
  exact ⟨h1, by exact_mod_cast h2⟩

theorem roundHalfEven_intCast (n : ℤ) : roundHalfEven (n : ℚ) = n := by
  rw [roundHalfEven, Int.floor_intCast]
  norm_num

theorem roundHalfEven_eq_intCast {q : ℚ} {n : ℤ} (h : q = (n : ℚ)) : roundHalfEven q = n := by
  rw [h, roundHalfEven_intCast]

theorem pyRound2_intCast100 {q : ℚ} {n : ℤ} (h : q * 100 = (n : ℚ)) :
    pyRound2 q = (n : ℚ) / 100 := by
  rw [pyRound2, roundHalfEven_eq_intCast h]

theorem pyTrunc_eval_nonneg {q : ℚ} {z : ℤ} (h0 : 0 ≤ q) (h1 : (z : ℚ) ≤ q)
    (h2 : q < z + 1) : pyTrunc q = z := by
  rw [pyTrunc_of_nonneg h0]
  exact floor_eval h1 h2

namespace EvacuationRouteOptimizer

/-- Counterexample to C4 as stated: a shelter with capacity 10 and
occupancy 20 gets capacity score -1, outside [0, 1] — the code only
clamps from above (min with 1.0); there is no lower clamp at 0. -/
theorem claim4_counterexample :
    capacity_score ⟨none, none, 0, 0, some 10, some 20⟩ = -1 ∧
      ¬ (0 : ℚ) ≤ capacity_score ⟨none, none, 0, 0, some 10, some 20⟩ := by
  have h : capacity_score ⟨none, none, 0, 0, some 10, some 20⟩ = -1 := by
    norm_num [capacity_score, capacity_available]
  exact ⟨h, by rw [h]; norm_num⟩

/-- Claim C4, amended: the derived capacity score is
min(1, (capacity - occupancy) / max(capacity, 1)) (defaults: capacity 0 in
the numerator, 1 in the denominator, occupancy 0); it never exceeds 1 and
is nonnegative whenever the occupancy does not exceed the capacity, but it
has no lower clamp: over-occupied shelters get a negative score. -/
theorem claim4_capacity_score (shelter : Shelter) :
    capacity_score shelter =
        min 1 (((shelter.capacity.getD 0 - shelter.current_occupancy.getD 0 : ℤ) : ℚ) /
          ((max (shelter.capacity.getD 1) 1 : ℤ) : ℚ)) ∧
      capacity_score shelter ≤ 1 ∧
      (shelter.current_occupancy.getD 0 ≤ shelter.capacity.getD 0 →
        0 ≤ capacity_score shelter) := by
  refine ⟨rfl, min_le_left _ _, ?_⟩
  intro hocc
  rw [capacity_score]
  refine le_min (by norm_num) (div_nonneg ?_ ?_)
  · have h : (0 : ℤ) ≤ capacity_available shelter := by
      rw [capacity_available]
      omega
    exact_mod_cast h
  · have h : (0 : ℤ) ≤ max (shelter.capacity.getD 1) 1 :=
      le_trans (by norm_num) (le_max_right _ _)
    exact_mod_cast h

/-- Witness for C4 (amended) at a shelter with capacity 100 and
occupancy 40. -/
theorem claim4_witness :
    capacity_score ⟨some "s1", some "S", 0, 0, some 100, some 40⟩ = 3/5 ∧
      (0 : ℚ) ≤ capacity_score ⟨some "s1", some "S", 0, 0, some 100, some 40⟩ ∧
      capacity_score ⟨some "s1", some "S", 0, 0, some 100, some 40⟩ ≤ 1 := by
  have h := claim4_capacity_score ⟨some "s1", some "S", 0, 0, some 100, some 40⟩
  refine ⟨?_, h.2.2 (by decide), h.2.1⟩
  rw [h.1]
  norm_num

/-- The safety score of `calculate_route_safety` does not depend on the
shelter coordinates: the branch selection only looks at the minimum
distance from the start point to the zones, and at the blocked-road
count. -/
theorem safety_score_indep (distKm : ℚ → ℚ → ℚ → ℚ → ℚ)
    (start_lat start_lon alat alon blat blon : ℚ)
    (disaster_zones : List HazardZone) (blocked_roads : List BlockedRoad) :
    (calculate_route_safety distKm start_lat start_lon alat alon disaster_zones
        blocked_roads).safety_score =
      (calculate_route_safety distKm start_lat start_lon blat blon disaster_zones
        blocked_roads).safety_score := by
  simp only [calculate_route_safety]
  cases hmd : minDisasterDistance distKm start_lat start_lon disaster_zones with
  | none => rfl
  | some m =>
    dsimp only
    split_ifs <;> rfl

/-- Claim C10: the route safety score never depends on the shelter
coordinates — the nearest-hazard-zone distance is computed from the user
start coordinates only — and `find_best_shelter` passes an empty
blocked-roads list, so every entry it returns carries the same safety
score (the one computed at the user location itself). -/
theorem claim10_safety_uniform (distKm : ℚ → ℚ → ℚ → ℚ → ℚ)
    (start_lat start_lon alat alon blat blon : ℚ)
    (disaster_zones : List HazardZone) (blocked_roads : List BlockedRoad)
    (shelters : List Shelter) (max_shelters : ℕ) :
    (calculate_route_safety distKm start_lat start_lon alat alon disaster_zones
        blocked_roads).safety_score =
      (calculate_route_safety distKm start_lat start_lon blat blon disaster_zones
        blocked_roads).safety_score ∧
      (∀ e ∈ find_best_shelter distKm start_lat start_lon shelters disaster_zones
          max_shelters,
        e.safety_score = (calculate_route_safety distKm start_lat start_lon start_lat
          start_lon disaster_zones []).safety_score) := by
  refine ⟨safety_score_indep distKm start_lat start_lon alat alon blat blon
    disaster_zones blocked_roads, ?_⟩
  intro e he
  simp only [find_best_shelter] at he
  have hmem : e ∈ sortDesc (fun r => r.combined_score)
      (shelters.map (mkRanked distKm start_lat start_lon disaster_zones)) :=
    (List.take_sublist _ _).subset he
  have hmem2 : e ∈ shelters.map (mkRanked distKm start_lat start_lon disaster_zones) :=
    (sortDesc_perm _ _).mem_iff.mp hmem
  obtain ⟨s, _, rfl⟩ := List.mem_map.mp hmem2
  calc (mkRanked distKm start_lat start_lon disaster_zones s).safety_score
      = (calculate_route_safety distKm start_lat start_lon s.latitude s.longitude
          disaster_zones []).safety_score := rfl
    _ = (calculate_route_safety distKm start_lat start_lon start_lat start_lon
          disaster_zones []).safety_score :=
        safety_score_indep distKm start_lat start_lon s.latitude s.longitude
          start_lat start_lon disaster_zones []

end EvacuationRouteOptimizer

namespace EvacuationRouteOptimizer

/-- Witness for C10 at a concrete distance function (taxicab), one shelter
and one hazard zone: the single returned entry carries the safety score of
the user location. -/
theorem claim10_witness :
    (⟨"A", "Emergency Shelter", 1, 0, 1, 1, 1/2, 10, 7/10⟩ : RankedShelter).safety_score =
      (calculate_route_safety (fun a b c d => |c - a| + |d - b|) 0 0 0 0
        [⟨3, 0⟩] []).safety_score := by
  have hroute : calculate_route_safety (fun a b c d => |c - a| + |d - b|) 0 0 1 0
      [⟨3, 0⟩] [] = ⟨1, 1, 1/2, some 3, false⟩ := by
    have hmd : minDisasterDistance (fun a b c d => |c - a| + |d - b|) 0 0 [⟨3, 0⟩] =
        some 3 := by
      simp only [minDisasterDistance, List.foldl]
      norm_num
    have hr1 : pyRound2 (1 : ℚ) = 1 := by
      rw [pyRound2_intCast100 (by norm_num : (1 : ℚ) * 100 = ((100 : ℤ) : ℚ))]
      norm_num
    have hr2 : pyRound2 (1/2 : ℚ) = 1/2 := by
      rw [pyRound2_intCast100 (by norm_num : (1/2 : ℚ) * 100 = ((50 : ℤ) : ℚ))]
      norm_num
    have hr3 : pyRound2 (3 : ℚ) = 3 := by
      rw [pyRound2_intCast100 (by norm_num : (3 : ℚ) * 100 = ((300 : ℤ) : ℚ))]
      norm_num
    have ht : pyTrunc (9/5 : ℚ) = 1 :=
      pyTrunc_eval_nonneg (by norm_num) (by norm_num) (by norm_num)
    simp only [calculate_route_safety, hmd]
    norm_num [hr1, hr2, hr3, ht]
  have hcap : capacity_score ⟨some "A", none, 1, 0, some 10, some 0⟩ = 1 := by
    norm_num [capacity_score, capacity_available]
  have hcomb : pyRound2 ((1/2 : ℚ) * 0.6 + 1 * 0.4) = 7/10 := by
    rw [pyRound2_intCast100
      (by norm_num : ((1/2 : ℚ) * 0.6 + 1 * 0.4) * 100 = ((70 : ℤ) : ℚ))]
    norm_num
  have hmk : mkRanked (fun a b c d => |c - a| + |d - b|) 0 0 [⟨3, 0⟩]
      ⟨some "A", none, 1, 0, some 10, some 0⟩ =
      ⟨"A", "Emergency Shelter", 1, 0, 1, 1, 1/2, 10, 7/10⟩ := by
    simp only [mkRanked, hroute, hcap, hcomb]
    norm_num [capacity_available]
  apply (claim10_safety_uniform (fun a b c d => |c - a| + |d - b|) 0 0 0 0 0 0
    [⟨3, 0⟩] [] [⟨some "A", none, 1, 0, some 10, some 0⟩] 3).2
  simp only [find_best_shelter, List.map, hmk, sortDesc, insertDesc, List.take]
  exact List.mem_singleton.mpr rfl

/-- Counterexample to C5 as stated: with no hazard zones, two shelters of
identical capacity tie on the combined score (0.97); the code keeps them
in input order, here the farther shelter (distance 2) before the nearer
one (distance 1), so ties are not broken by ascending distance. -/
theorem claim5_counterexample :
    find_best_shelter (fun a b c d => |c - a| + |d - b|) 0 0
        [⟨some "A", none, 2, 0, some 100, some 0⟩, ⟨some "B", none, 1, 0, some 100, some 0⟩]
        [] 3 =
      [⟨"A", "Emergency Shelter", 2, 0, 2, 3, 19/20, 100, 97/100⟩,
        ⟨"B", "Emergency Shelter", 1, 0, 1, 1, 19/20, 100, 97/100⟩] ∧
      (⟨"A", "Emergency Shelter", 2, 0, 2, 3, 19/20, 100, 97/100⟩ :
          RankedShelter).combined_score =
        (⟨"B", "Emergency Shelter", 1, 0, 1, 1, 19/20, 100, 97/100⟩ :
          RankedShelter).combined_score ∧
      (⟨"B", "Emergency Shelter", 1, 0, 1, 1, 19/20, 100, 97/100⟩ :
          RankedShelter).distance_km <
        (⟨"A", "Emergency Shelter", 2, 0, 2, 3, 19/20, 100, 97/100⟩ :
          RankedShelter).distance_km := by
  have hr95 : pyRound2 (19/20 : ℚ) = 19/20 := by
    rw [pyRound2_intCast100 (by norm_num : (19/20 : ℚ) * 100 = ((95 : ℤ) : ℚ))]
    norm_num
  have hcomb : pyRound2 ((19/20 : ℚ) * 0.6 + 1 * 0.4) = 97/100 := by
    rw [pyRound2_intCast100
      (by norm_num : ((19/20 : ℚ) * 0.6 + 1 * 0.4) * 100 = ((97 : ℤ) : ℚ))]
    norm_num
  have hrouteA : calculate_route_safety (fun a b c d => |c - a| + |d - b|) 0 0 2 0 [] [] =
      ⟨2, 3, 19/20, none, true⟩ := by
    have hr2 : pyRound2 (2 : ℚ) = 2 := by
      rw [pyRound2_intCast100 (by norm_num : (2 : ℚ) * 100 = ((200 : ℤ) : ℚ))]
      norm_num
    have ht : pyTrunc (3 : ℚ) = 3 := by
      rw [show (3 : ℚ) = ((3 : ℤ) : ℚ) by norm_num, pyTrunc_intCast]
    simp only [calculate_route_safety, minDisasterDistance, List.foldl]
    norm_num [hr2, hr95, ht]
  have hrouteB : calculate_route_safety (fun a b c d => |c - a| + |d - b|) 0 0 1 0 [] [] =
      ⟨1, 1, 19/20, none, true⟩ := by
    have hr1 : pyRound2 (1 : ℚ) = 1 := by
      rw [pyRound2_intCast100 (by norm_num : (1 : ℚ) * 100 = ((100 : ℤ) : ℚ))]
      norm_num
    have ht : pyTrunc (3/2 : ℚ) = 1 :=
      pyTrunc_eval_nonneg (by norm_num) (by norm_num) (by norm_num)
    simp only [calculate_route_safety, minDisasterDistance, List.foldl]
    norm_num [hr1, hr95, ht]
  have hcapA : capacity_score ⟨some "A", none, 2, 0, some 100, some 0⟩ = 1 := by
    norm_num [capacity_score, capacity_available]
  have hcapB : capacity_score ⟨some "B", none, 1, 0, some 100, some 0⟩ = 1 := by
    norm_num [capacity_score, capacity_available]
  have hmkA : mkRanked (fun a b c d => |c - a| + |d - b|) 0 0 []
      ⟨some "A", none, 2, 0, some 100, some 0⟩ =
      ⟨"A", "Emergency Shelter", 2, 0, 2, 3, 19/20, 100, 97/100⟩ := by
    simp only [mkRanked, hrouteA, hcapA, hcomb]
    norm_num [capacity_available]
  have hmkB : mkRanked (fun a b c d => |c - a| + |d - b|) 0 0 []
      ⟨some "B", none, 1, 0, some 100, some 0⟩ =
      ⟨"B", "Emergency Shelter", 1, 0, 1, 1, 19/20, 100, 97/100⟩ := by
    simp only [mkRanked, hrouteB, hcapB, hcomb]
    norm_num [capacity_available]
  refine ⟨?_, by norm_num, by norm_num⟩
  simp only [find_best_shelter, List.map, hmkA, hmkB, sortDesc, insertDesc]
  norm_num

end EvacuationRouteOptimizer

namespace EvacuationRouteOptimizer

/-- Claim C5, amended: for every user location, hazard-zone list and
shelter list, the ranking computes per shelter the combined score
round2(0.6 x routeSafety + 0.4 x capacityScore) — where routeSafety is the
safety score as stored, itself rounded to two decimals — sorts the entries
descending by that combined score with the stable sort keeping tied
entries in input order (not by ascending distance), and returns the first
min(N, number of shelters) entries. -/
theorem claim5_ranking (distKm : ℚ → ℚ → ℚ → ℚ → ℚ) (user_lat user_lon : ℚ)
    (shelters : List Shelter) (disaster_zones : List HazardZone) (max_shelters : ℕ) :
    (find_best_shelter distKm user_lat user_lon shelters disaster_zones
        max_shelters).Pairwise (fun a b => b.combined_score ≤ a.combined_score) ∧
      (find_best_shelter distKm user_lat user_lon shelters disaster_zones
        max_shelters).length = min max_shelters shelters.length ∧
      (∀ e ∈ find_best_shelter distKm user_lat user_lon shelters disaster_zones
          max_shelters,
        ∃ s ∈ shelters,
          e = mkRanked distKm user_lat user_lon disaster_zones s ∧
          e.combined_score = pyRound2
            ((calculate_route_safety distKm user_lat user_lon s.latitude s.longitude
              disaster_zones []).safety_score * 0.6 + capacity_score s * 0.4)) := by
  refine ⟨?_, ?_, ?_⟩
  · simp only [find_best_shelter]
    exact (sortDesc_pairwise _ _).sublist (List.take_sublist _ _)
  · simp only [find_best_shelter]
    rw [List.length_take, (sortDesc_perm _ _).length_eq, List.length_map]
  · intro e he
    simp only [find_best_shelter] at he
    have hmem : e ∈ sortDesc (fun r => r.combined_score)
        (shelters.map (mkRanked distKm user_lat user_lon disaster_zones)) :=
      (List.take_sublist _ _).subset he
    have hmem2 : e ∈ shelters.map (mkRanked distKm user_lat user_lon disaster_zones) :=
      (sortDesc_perm _ _).mem_iff.mp hmem
    obtain ⟨s, hs, rfl⟩ := List.mem_map.mp hmem2
    exact ⟨s, hs, rfl, rfl⟩

/-- Witness for C5 (amended) at the taxicab distance, a user at the
origin, one shelter and one hazard zone. -/
theorem claim5_witness :
    (find_best_shelter (fun a b c d => |c - a| + |d - b|) 0 0
        [⟨some "A", none, 1, 0, some 10, some 0⟩] [⟨3, 0⟩] 3).Pairwise
      (fun a b => b.combined_score ≤ a.combined_score) ∧
      (find_best_shelter (fun a b c d => |c - a| + |d - b|) 0 0
        [⟨some "A", none, 1, 0, some 10, some 0⟩] [⟨3, 0⟩] 3).length = 1 ∧
      (∃ s ∈ [(⟨some "A", none, 1, 0, some 10, some 0⟩ : Shelter)],
        (⟨"A", "Emergency Shelter", 1, 0, 1, 1, 1/2, 10, 7/10⟩ : RankedShelter) =
          mkRanked (fun a b c d => |c - a| + |d - b|) 0 0 [⟨3, 0⟩] s ∧
        (⟨"A", "Emergency Shelter", 1, 0, 1, 1, 1/2, 10, 7/10⟩ :
            RankedShelter).combined_score = pyRound2
          ((calculate_route_safety (fun a b c d => |c - a| + |d - b|) 0 0 s.latitude
            s.longitude [⟨3, 0⟩] []).safety_score * 0.6 + capacity_score s * 0.4)) := by
  have h := claim5_ranking (fun a b c d => |c - a| + |d - b|) 0 0
    [⟨some "A", none, 1, 0, some 10, some 0⟩] [⟨3, 0⟩] 3
  refine ⟨h.1, by rw [h.2.1]; decide, ?_⟩
  apply h.2.2
  have hroute : calculate_route_safety (fun a b c d => |c - a| + |d - b|) 0 0 1 0
      [⟨3, 0⟩] [] = ⟨1, 1, 1/2, some 3, false⟩ := by
    have hmd : minDisasterDistance (fun a b c d => |c - a| + |d - b|) 0 0 [⟨3, 0⟩] =
        some 3 := by
      simp only [minDisasterDistance, List.foldl]
      norm_num
    have hr1 : pyRound2 (1 : ℚ) = 1 := by
      rw [pyRound2_intCast100 (by norm_num : (1 : ℚ) * 100 = ((100 : ℤ) : ℚ))]
      norm_num
    have hr2 : pyRound2 (1/2 : ℚ) = 1/2 := by
      rw [pyRound2_intCast100 (by norm_num : (1/2 : ℚ) * 100 = ((50 : ℤ) : ℚ))]
      norm_num
    have hr3 : pyRound2 (3 : ℚ) = 3 := by
      rw [pyRound2_intCast100 (by norm_num : (3 : ℚ) * 100 = ((300 : ℤ) : ℚ))]
      norm_num
    have ht : pyTrunc (9/5 : ℚ) = 1 :=
      pyTrunc_eval_nonneg (by norm_num) (by norm_num) (by norm_num)
    simp only [calculate_route_safety, hmd]
    norm_num [hr1, hr2, hr3, ht]
  have hcap : capacity_score ⟨some "A", none, 1, 0, some 10, some 0⟩ = 1 := by
    norm_num [capacity_score, capacity_available]
  have hcomb : pyRound2 ((1/2 : ℚ) * 0.6 + 1 * 0.4) = 7/10 := by
    rw [pyRound2_intCast100
      (by norm_num : ((1/2 : ℚ) * 0.6 + 1 * 0.4) * 100 = ((70 : ℤ) : ℚ))]
    norm_num
  have hmk : mkRanked (fun a b c d => |c - a| + |d - b|) 0 0 [⟨3, 0⟩]
      ⟨some "A", none, 1, 0, some 10, some 0⟩ =
      ⟨"A", "Emergency Shelter", 1, 0, 1, 1, 1/2, 10, 7/10⟩ := by
    simp only [mkRanked, hroute, hcap, hcomb]
    norm_num [capacity_available]
  simp only [find_best_shelter, List.map, hmk, sortDesc, insertDesc, List.take]
  exact List.mem_singleton.mpr rfl

end EvacuationRouteOptimizer

namespace ResourceAllocator

/-- `allocationOf` copies the priority of the prioritized pair into the
allocation record. -/
theorem allocationOf_priority (p : DisasterZone × ℚ) (a : Allocation)
    (h : allocationOf p = some a) : a.priority = p.2 := by
  cases hs : p.1.severity with
  | none => simp [allocationOf, hs] at h
  | some s =>
    simp only [allocationOf, hs, Option.some.injEq] at h
    rw [← h]

/-- Every member of a successful `allocList` run comes from some pair of
the input list. -/
theorem allocList_mem (l : List (DisasterZone × ℚ)) (out : List Allocation)
    (h : allocList l = some out) :
    ∀ b ∈ out, ∃ q ∈ l, allocationOf q = some b := by
  induction l generalizing out with
  | nil =>
    simp only [allocList, Option.some.injEq] at h
    rw [← h]
    intro b hb
    exact absurd hb (List.not_mem_nil b)
  | cons p rest ih =>
    rw [allocList] at h
    cases ha : allocationOf p with
    | none => rw [ha] at h; simp at h
    | some a =>
      cases hr : allocList rest with
      | none => rw [ha, hr] at h; simp at h
      | some lr =>
        rw [ha, hr] at h
        simp only [Option.some.injEq] at h
        subst h
        intro b hb
        rcases List.mem_cons.mp hb with rfl | hb2
        · exact ⟨p, List.mem_cons_self _ _, ha⟩
        · obtain ⟨q, hq, hq2⟩ := ih lr hr b hb2
          exact ⟨q, List.mem_cons_of_mem _ hq, hq2⟩

/-- A successful `allocList` run preserves a descending priority order. -/
theorem allocList_pairwise (l : List (DisasterZone × ℚ)) (out : List Allocation)
    (h : allocList l = some out) (hp : l.Pairwise fun p q => q.2 ≤ p.2) :
    out.Pairwise fun a b => b.priority ≤ a.priority := by
  induction l generalizing out with
  | nil =>
    simp only [allocList, Option.some.injEq] at h
    rw [← h]
    exact List.Pairwise.nil
  | cons p rest ih =>
    rw [allocList] at h
    cases ha : allocationOf p with
    | none => rw [ha] at h; simp at h
    | some a =>
      cases hr : allocList rest with
      | none => rw [ha, hr] at h; simp at h
      | some lr =>
        rw [ha, hr] at h
        simp only [Option.some.injEq] at h
        subst h
        rw [List.pairwise_cons] at hp ⊢
        refine ⟨?_, ih lr hr hp.2⟩
        intro b hb
        obtain ⟨q, hq, hq2⟩ := allocList_mem rest lr hr b hb
        rw [allocationOf_priority p a ha, allocationOf_priority q b hq2]
        exact hp.1 q hq

/-- `allocList` succeeds whenever every pair carries a severity value. -/
theorem allocList_total (l : List (DisasterZone × ℚ))
    (h : ∀ p ∈ l, (p.1.severity).isSome) : ∃ out, allocList l = some out := by
  induction l with
  | nil => exact ⟨[], rfl⟩
  | cons p rest ih =>
    obtain ⟨out, hout⟩ := ih fun q hq => h q (List.mem_cons_of_mem _ hq)
    have hp := h p (List.mem_cons_self _ _)
    cases hs : p.1.severity with
    | none => rw [hs] at hp; simp at hp
    | some s =>
      obtain ⟨a, ha2⟩ : ∃ a, allocationOf p = some a := by
        rw [allocationOf.eq_def, hs]
        exact ⟨_, rfl⟩
      exact ⟨a :: out, by rw [allocList, ha2, hout]⟩

/-- Claim C7: for every disaster zone whose severity value s lies in
[0, 10], radius at least 0 and population at least 0, the resource
priority equals min(1, 0.5*(s/10) + 0.5*min(population*(pi*radius^2/100),
10000)/10000) — with pi the double constant of the source — and always
lies in [0, 1]; and every allocation list returned by allocate_resources
is sorted by descending priority (and the call succeeds whenever every
zone carries a severity). -/
theorem claim7_priority_allocation :
    (∀ (zone : DisasterZone) (pop s : ℚ), zone.severity = some s → 0 ≤ s → s ≤ 10 →
      0 ≤ zone.affected_radius_km.getD 5 → 0 ≤ pop →
      calculate_resource_priority zone pop =
          min 1 (0.5 * (s / 10) +
            0.5 * (min (pop * (piF * (zone.affected_radius_km.getD 5) ^ 2 / 100)) 10000 /
              10000)) ∧
        0 ≤ calculate_resource_priority zone pop ∧
        calculate_resource_priority zone pop ≤ 1) ∧
      (∀ (disasters : List DisasterZone) (out : List Allocation),
        allocate_resources disasters = some out →
        out.Pairwise fun a b => b.priority ≤ a.priority) ∧
      (∀ disasters : List DisasterZone, (∀ z ∈ disasters, z.severity.isSome) →
        ∃ out, allocate_resources disasters = some out) := by
  refine ⟨?_, ?_, ?_⟩
  · intro zone pop s hs h0 h10 hrad hpop
    have hpi : (0 : ℚ) ≤ piF := by norm_num [piF]
    have hest : (0 : ℚ) ≤ pop * (piF * (zone.affected_radius_km.getD 5) ^ 2 / 100) :=
      mul_nonneg hpop (div_nonneg (mul_nonneg hpi (sq_nonneg _)) (by norm_num))
    have hmin0 : (0 : ℚ) ≤ min (pop * (piF * (zone.affected_radius_km.getD 5) ^ 2 / 100))
        10000 := le_min hest (by norm_num)
    have hmin1 : min (pop * (piF * (zone.affected_radius_km.getD 5) ^ 2 / 100)) 10000 ≤
        10000 := min_le_right _ _
    refine ⟨?_, ?_, ?_⟩
    · rw [calculate_resource_priority, hs]
      simp only [Option.getD_some]
      congr 1
      ring
    · rw [calculate_resource_priority, hs]
      simp only [Option.getD_some]
      refine le_min (by norm_num) ?_
      have ht1 : (0 : ℚ) ≤ s / 10 * 0.5 := by positivity
      have ht2 : (0 : ℚ) ≤ min (pop * (piF * (zone.affected_radius_km.getD 5) ^ 2 / 100))
          10000 / 10000 * 0.5 := by
        apply mul_nonneg (div_nonneg hmin0 (by norm_num))
        norm_num
      linarith
    · exact min_le_left _ _
  · intro disasters out h
    simp only [allocate_resources] at h
    exact allocList_pairwise _ out h (sortDesc_pairwise _ _)
  · intro disasters hall
    simp only [allocate_resources]
    apply allocList_total
    intro p hp
    have hmem : p ∈ disasters.map fun d =>
        (d, calculate_resource_priority d (d.population.getD 50000)) :=
      (sortDesc_perm _ _).mem_iff.mp hp
    obtain ⟨z, hz, rfl⟩ := List.mem_map.mp hmem
    exact hall z hz

/-- Witness for C7 at a zone with severity 8, radius 2, population 1000. -/
theorem claim7_witness :
    (0 : ℚ) ≤ calculate_resource_priority ⟨some "z1", 1, 2, some 8, some 2, some 1000⟩ 1000 ∧
      calculate_resource_priority ⟨some "z1", 1, 2, some 8, some 2, some 1000⟩ 1000 ≤ 1 ∧
      (∃ out, allocate_resources [⟨some "z1", 1, 2, some 8, some 2, some 1000⟩] = some out ∧
        out.Pairwise fun a b => b.priority ≤ a.priority) := by
  have h1 := claim7_priority_allocation.1 ⟨some "z1", 1, 2, some 8, some 2, some 1000⟩
    1000 8 rfl (by norm_num) (by norm_num)
    (by simp only [Option.getD_some]; norm_num) (by norm_num)
  obtain ⟨out, hout⟩ := claim7_priority_allocation.2.2
    [⟨some "z1", 1, 2, some 8, some 2, some 1000⟩]
    (by intro z hz; rcases List.mem_singleton.mp hz with rfl; rfl)
  exact ⟨h1.2.1, h1.2.2, out, hout, claim7_priority_allocation.2.1 _ out hout⟩

end ResourceAllocator

namespace AlertGenerator

/-- Counterexample to C9 as stated: two `generate_alert` calls with
identical engine inputs but different wall-clock readings produce
different outputs — already the alert id differs — so the alert engine is
not call-to-call deterministic; the clock is read inside the engine, not
passed in. -/
theorem claim9_counterexample :
    (generate_alert ⟨some (1/2), some "flood", some 6, some "Go", some "Delhi", some 28,
        some 77⟩ 100 0 0 0).alert_id = "ALERT-0" ∧
      (generate_alert ⟨some (1/2), some "flood", some 6, some "Go", some "Delhi", some 28,
        some 77⟩ 100 1 1 1).alert_id = "ALERT-1" ∧
      generate_alert ⟨some (1/2), some "flood", some 6, some "Go", some "Delhi", some 28,
          some 77⟩ 100 0 0 0 ≠
        generate_alert ⟨some (1/2), some "flood", some 6, some "Go", some "Delhi", some 28,
          some 77⟩ 100 1 1 1 := by
  refine ⟨rfl, rfl, fun h => ?_⟩
  have h2 := congrArg Alert.alert_id h
  exact absurd h2 (by decide)

/-- Claim C9, amended: report verification, risk scoring, shelter ranking
and resource allocation are pure functions of their explicit inputs (they
are embedded as plain functions with no clock argument); alert generation
additionally reads the wall clock inside the engine (three datetime.now()
calls), so its alert_id, timestamp and expires_at fields vary between
calls, while every other field of the generated alert is determined by
the inputs alone. -/
theorem claim9_alert_clock_dependence (p : AlertInput) (population_affected : ℤ)
    (t1 t2 t3 s1 s2 s3 : ℤ) :
    (generate_alert p population_affected t1 t2 t3).location =
        (generate_alert p population_affected s1 s2 s3).location ∧
      (generate_alert p population_affected t1 t2 t3).latitude =
        (generate_alert p population_affected s1 s2 s3).latitude ∧
      (generate_alert p population_affected t1 t2 t3).longitude =
        (generate_alert p population_affected s1 s2 s3).longitude ∧
      (generate_alert p population_affected t1 t2 t3).alert_level =
        (generate_alert p population_affected s1 s2 s3).alert_level ∧
      (generate_alert p population_affected t1 t2 t3).event_type =
        (generate_alert p population_affected s1 s2 s3).event_type ∧
      (generate_alert p population_affected t1 t2 t3).risk_score =
        (generate_alert p population_affected s1 s2 s3).risk_score ∧
      (generate_alert p population_affected t1 t2 t3).message =
        (generate_alert p population_affected s1 s2 s3).message ∧
      (generate_alert p population_affected t1 t2 t3).color_code =
        (generate_alert p population_affected s1 s2 s3).color_code ∧
      (generate_alert p population_affected t1 t2 t3).population_affected =
        (generate_alert p population_affected s1 s2 s3).population_affected :=
  ⟨rfl, rfl, rfl, rfl, rfl, rfl, rfl, rfl, rfl⟩

end AlertGenerator
